import Mathlib

/-!
Verification of the gesture-detection core of `sage_lock` (sage_lock.cpp).

The core consists of the globals `Volume_Event_History` (a 4-slot array of
virtual-key codes), `Current_Index` (a WORD write cursor), `Last_Volume_Event`
(a DWORD64 tick count), `lock_enabled` (an int used as a boolean) and
`g_TouchScreens` (the device registry), together with the functions
`GetAvailableKbdHistoryIndex`, `CheckForVolumeUpDownUpDown`,
`SetKbdHistoryIndex`, `ToggleTouchDevice` and `SoundEffect`.

The embedding below represents the globals as an explicit state record and the
functions as state transformers.  Side effects towards the external
collaborators (`ToggleTouchDevice` process launches and `PlaySound` calls) are
recorded in an output record instead of being performed.
-/

set_option autoImplicit false

namespace SageLock

/-- Windows virtual-key code `VK_VOLUME_UP` (0xAF). -/
def VK_VOLUME_UP : Nat := 0xAF

/-- Windows virtual-key code `VK_VOLUME_DOWN` (0xAE). -/
def VK_VOLUME_DOWN : Nat := 0xAE

/-- Two's-complement subtraction of DWORD64 values, as performed by
`dwCurrentTime - Last_Volume_Event` in `GetAvailableKbdHistoryIndex`. -/
def sub64 (a b : Nat) : Nat :=
  (a % 2 ^ 64 + (2 ^ 64 - b % 2 ^ 64)) % 2 ^ 64

/-- The mutable globals of the core: the four slots of
`Volume_Event_History`, `Current_Index`, `Last_Volume_Event` and
`lock_enabled`.  `g_TouchScreens` is read-only after startup and is passed
as a parameter instead. -/
structure SageState where
  h0 : Nat
  h1 : Nat
  h2 : Nat
  h3 : Nat
  idx : Nat
  last : Nat
  lock : Bool
deriving DecidableEq, Repr

/-- The globals at process start: `Volume_Event_History{}` is zero-initialised,
`Current_Index = 0`, `Last_Volume_Event = 0`, `lock_enabled = 0`. -/
def initState : SageState :=
  ⟨0, 0, 0, 0, 0, 0, false⟩

/-- Read `Volume_Event_History[i]` (the source only ever reads indices 0–3). -/
def getHist (s : SageState) (i : Nat) : Nat :=
  match i with
  | 0 => s.h0
  | 1 => s.h1
  | 2 => s.h2
  | 3 => s.h3
  | _ => 0

/-- Write `Volume_Event_History[i] = v` (the source only ever writes the index
returned by `GetAvailableKbdHistoryIndex`, which is at most 3). -/
def writeHist (s : SageState) (i v : Nat) : SageState :=
  match i with
  | 0 => { s with h0 := v }
  | 1 => { s with h1 := v }
  | 2 => { s with h2 := v }
  | 3 => { s with h3 := v }
  | _ => s

/-- `GetAvailableKbdHistoryIndex`: reads the current tick count (passed here as
`now`), computes the time since the last volume event, stores the new tick
count, then resets `Current_Index` to 0 when more than 500 ms have elapsed and
increments it (as a WORD) otherwise, clamping any value above 3 back to 0.
Returns the updated state together with the returned index. -/
def GetAvailableKbdHistoryIndex (s : SageState) (now : Nat) : SageState × Nat :=
  let timeSinceLast := sub64 now s.last
  let s1 : SageState := { s with last := now }
  let i1 : Nat := if timeSinceLast > 500 then 0 else (s1.idx + 1) % 2 ^ 16
  let i2 : Nat := if i1 > 3 then 0 else i1
  ({ s1 with idx := i2 }, i2)

/-- The pattern test performed by `CheckForVolumeUpDownUpDown`:
`Volume_Event_History` equals `[VK_VOLUME_UP, VK_VOLUME_DOWN, VK_VOLUME_UP,
VK_VOLUME_DOWN]` in order. -/
def volumePattern (s : SageState) : Bool :=
  s.h0 == VK_VOLUME_UP && s.h1 == VK_VOLUME_DOWN &&
    s.h2 == VK_VOLUME_UP && s.h3 == VK_VOLUME_DOWN

/-- `CheckForVolumeUpDownUpDown`: sets `Current_Index = 0` and returns whether
the history buffer holds UP, DOWN, UP, DOWN in order. -/
def CheckForVolumeUpDownUpDown (s : SageState) : SageState × Bool :=
  ({ s with idx := 0 }, volumePattern s)

/-- One `pnputil.exe` invocation requested by `ToggleTouchDevice`: the device
identifier and whether `/enable-device` (true) or `/disable-device` (false)
was passed. -/
structure ToggleReq where
  device : String
  enable : Bool
deriving DecidableEq, Repr

/-- The observable effects of one `SetKbdHistoryIndex` call: the slot index
returned by `GetAvailableKbdHistoryIndex`, whether `CheckForVolumeUpDownUpDown`
was invoked, whether it matched, the `ToggleTouchDevice` requests issued in
order, and the `SoundEffect` flag if a sound was requested. -/
structure Output where
  slot : Nat
  checked : Bool
  matched : Bool
  toggles : List ToggleReq
  sound : Option Bool
deriving DecidableEq, Repr

/-- `SetKbdHistoryIndex(vkKey)`: obtains the next slot index, writes the key
there, and when the slot is 3 runs the matcher; on a match it flips
`lock_enabled`, requests a toggle with flag `!lock_enabled` for every entry of
`g_TouchScreens` (passed as `screens`), and requests `SoundEffect(!lock_enabled)`.
Due to `&&` short-circuiting, the matcher only runs when the slot is 3. -/
def SetKbdHistoryIndex (screens : List String) (s : SageState) (now vkKey : Nat) :
    SageState × Output :=
  let p := GetAvailableKbdHistoryIndex s now
  let i := p.2
  let s2 := writeHist p.1 i vkKey
  if i == 3 then
    let q := CheckForVolumeUpDownUpDown s2
    if q.2 then
      let s4 : SageState := { q.1 with lock := !q.1.lock }
      (s4, ⟨i, true, true, screens.map (fun d => ⟨d, !s4.lock⟩), some (!s4.lock)⟩)
    else
      (q.1, ⟨i, true, false, [], none⟩)
  else
    (s2, ⟨i, false, false, [], none⟩)

/-- The slot index produced by one `GetAvailableKbdHistoryIndex` call, as a
function of the pre-state and the current tick count: 0 after a gap of more
than 500 ms, otherwise the WORD increment of `Current_Index` clamped back to 0
when it exceeds 3. -/
def nextIndex (s : SageState) (now : Nat) : Nat :=
  if sub64 now s.last > 500 then 0
  else if (s.idx + 1) % 2 ^ 16 > 3 then 0 else (s.idx + 1) % 2 ^ 16

/-- An accepted raw-input event: the tick count at which it is processed and
its virtual-key code (the message loop only forwards `VK_VOLUME_UP` and
`VK_VOLUME_DOWN` key-down events). -/
structure KeyEvent where
  time : Nat
  vk : Nat
deriving DecidableEq, Repr

/-- Run the pipeline over a list of accepted events, returning the final
state. -/
def runS (screens : List String) (s : SageState) : List KeyEvent → SageState
  | [] => s
  | e :: es => runS screens (SetKbdHistoryIndex screens s e.time e.vk).1 es

/-- Run the pipeline over a list of accepted events, returning the final state
and the per-event outputs in order. -/
def runOut (screens : List String) (s : SageState) : List KeyEvent → SageState × List Output
  | [] => (s, [])
  | e :: es =>
    let p := SetKbdHistoryIndex screens s e.time e.vk
    let q := runOut screens p.1 es
    (q.1, p.2 :: q.2)

/-- Ghost provenance: for each buffer slot, the 1-based position in the input
stream of the event whose tag currently occupies it (0 = never written). -/
structure Prov where
  p0 : Nat
  p1 : Nat
  p2 : Nat
  p3 : Nat
deriving DecidableEq, Repr

/-- Record that slot `i` was written by event number `n`. -/
def writeProv (p : Prov) (i n : Nat) : Prov :=
  match i with
  | 0 => { p with p0 := n }
  | 1 => { p with p1 := n }
  | 2 => { p with p2 := n }
  | 3 => { p with p3 := n }
  | _ => p

/-- Run the pipeline while tracking, for every step, the output together with
the slot provenance immediately after that step.  `n` is the 1-based number of
the next event. -/
def runProvOut (screens : List String) (s : SageState) (p : Prov) (n : Nat) :
    List KeyEvent → SageState × List (Output × Prov)
  | [] => (s, [])
  | e :: es =>
    let r := SetKbdHistoryIndex screens s e.time e.vk
    let p1 := writeProv p r.2.slot n
    let q := runProvOut screens r.1 p1 (n + 1) es
    (q.1, (r.2, p1) :: q.2)

/-! ### Basic lemmas about the embedded operations -/

theorem sub64_eq_of_le {a b : Nat} (h1 : b ≤ a) (h2 : a < 2 ^ 64) :
    sub64 a b = a - b := by
  unfold sub64
  omega

@[simp] theorem writeHist_idx (s : SageState) (i v : Nat) :
    (writeHist s i v).idx = s.idx := by
  unfold writeHist
  rcases i with _ | _ | _ | _ | i <;> rfl

@[simp] theorem writeHist_last (s : SageState) (i v : Nat) :
    (writeHist s i v).last = s.last := by
  unfold writeHist
  rcases i with _ | _ | _ | _ | i <;> rfl

@[simp] theorem writeHist_lock (s : SageState) (i v : Nat) :
    (writeHist s i v).lock = s.lock := by
  unfold writeHist
  rcases i with _ | _ | _ | _ | i <;> rfl

theorem getHist_writeHist_self (s : SageState) {i : Nat} (v : Nat) (hi : i ≤ 3) :
    getHist (writeHist s i v) i = v := by
  unfold writeHist getHist
  rcases i with _ | _ | _ | _ | i <;> first | rfl | omega

theorem getHist_writeHist_ne (s : SageState) {i j : Nat} (v : Nat) (hne : j ≠ i) :
    getHist (writeHist s i v) j = getHist s j := by
  unfold writeHist getHist
  rcases i with _ | _ | _ | _ | i <;> rcases j with _ | _ | _ | _ | j <;>
    first | rfl | omega

theorem getAvail_eq (s : SageState) (now : Nat) :
    GetAvailableKbdHistoryIndex s now =
      ({ s with last := now, idx := nextIndex s now }, nextIndex s now) := by
  unfold GetAvailableKbdHistoryIndex nextIndex
  by_cases h : sub64 now s.last > 500 <;> simp [h]

theorem nextIndex_le (s : SageState) (now : Nat) : nextIndex s now ≤ 3 := by
  unfold nextIndex
  split
  · omega
  · split <;> omega

theorem nextIndex_quick_of_pos (s : SageState) (now : Nat)
    (h : 0 < nextIndex s now) :
    sub64 now s.last ≤ 500 ∧ (s.idx + 1) % 2 ^ 16 = nextIndex s now := by
  unfold nextIndex at h ⊢
  by_cases h1 : sub64 now s.last > 500
  · rw [if_pos h1] at h
    omega
  · rw [if_neg h1] at h ⊢
    by_cases h2 : (s.idx + 1) % 2 ^ 16 > 3
    · rw [if_pos h2] at h
      omega
    · rw [if_neg h2] at h ⊢
      exact ⟨by omega, rfl⟩

theorem setKbd_eq (screens : List String) (s : SageState) (now vkKey : Nat) :
    SetKbdHistoryIndex screens s now vkKey =
      (let i := nextIndex s now
       let s2 := writeHist { s with last := now, idx := i } i vkKey
       if i = 3 then
         if volumePattern s2 then
           ({ s2 with idx := 0, lock := !s2.lock },
             ⟨i, true, true, screens.map (fun d => ⟨d, s2.lock⟩), some s2.lock⟩)
         else
           ({ s2 with idx := 0 }, ⟨i, true, false, [], none⟩)
       else (s2, ⟨i, false, false, [], none⟩)) := by
  unfold SetKbdHistoryIndex CheckForVolumeUpDownUpDown
  rw [getAvail_eq]
  simp only [beq_iff_eq]
  split_ifs <;> simp [Bool.not_not]

theorem step_slot (screens : List String) (s : SageState) (now vkKey : Nat) :
    (SetKbdHistoryIndex screens s now vkKey).2.slot = nextIndex s now := by
  simp only [setKbd_eq]
  split_ifs with h1 h2 <;> simp [h1]

theorem step_last (screens : List String) (s : SageState) (now vkKey : Nat) :
    (SetKbdHistoryIndex screens s now vkKey).1.last = now := by
  simp only [setKbd_eq]
  split_ifs <;> simp

theorem step_idx (screens : List String) (s : SageState) (now vkKey : Nat) :
    (SetKbdHistoryIndex screens s now vkKey).1.idx =
      if nextIndex s now = 3 then 0 else nextIndex s now := by
  simp only [setKbd_eq]
  split_ifs with h1 h2 <;> simp [h1]

theorem step_idx_le (screens : List String) (s : SageState) (now vkKey : Nat) :
    (SetKbdHistoryIndex screens s now vkKey).1.idx ≤ 3 := by
  rw [step_idx]
  split
  · omega
  · exact nextIndex_le s now

theorem step_checked (screens : List String) (s : SageState) (now vkKey : Nat) :
    (SetKbdHistoryIndex screens s now vkKey).2.checked = true ↔
      nextIndex s now = 3 := by
  simp only [setKbd_eq]
  split_ifs with h1 h2 <;> simp [h1]

theorem step_matched (screens : List String) (s : SageState) (now vkKey : Nat)
    (h : (SetKbdHistoryIndex screens s now vkKey).2.matched = true) :
    nextIndex s now = 3 := by
  by_contra h3
  rw [setKbd_eq] at h
  simp [h3] at h

@[simp] theorem getHist_fields (x : SageState) (i l : Nat) (k : Bool) (j : Nat) :
    getHist ⟨x.h0, x.h1, x.h2, x.h3, i, l, k⟩ j = getHist x j := by
  unfold getHist
  rcases j with _ | _ | _ | _ | j <;> rfl

@[simp] theorem volumePattern_fields (x : SageState) (i l : Nat) (k : Bool) :
    volumePattern ⟨x.h0, x.h1, x.h2, x.h3, i, l, k⟩ = volumePattern x := rfl

theorem runS_idx_le (screens : List String) (es : List KeyEvent) (s : SageState)
    (h : s.idx ≤ 3) : (runS screens s es).idx ≤ 3 := by
  induction es generalizing s with
  | nil => exact h
  | cons e es ih => exact ih _ (step_idx_le screens s e.time e.vk)

theorem runS_append (screens : List String) (s : SageState)
    (es es' : List KeyEvent) :
    runS screens s (es ++ es') = runS screens (runS screens s es) es' := by
  induction es generalizing s with
  | nil => rfl
  | cons e es ih => simpa [runS] using ih _

theorem nextIndex_quick_succ (s : SageState) (now : Nat)
    (hg : ¬ sub64 now s.last > 500) (hidx : s.idx ≤ 2) :
    nextIndex s now = s.idx + 1 := by
  unfold nextIndex
  rw [if_neg hg]
  have hm : (s.idx + 1) % 2 ^ 16 = s.idx + 1 := by omega
  rw [hm, if_neg (by omega)]

theorem step_reset_eq (screens : List String) (s : SageState) (t k : Nat)
    (hg : sub64 t s.last > 500) :
    SetKbdHistoryIndex screens s t k =
      (⟨k, s.h1, s.h2, s.h3, 0, t, s.lock⟩, ⟨0, false, false, [], none⟩) := by
  have hn : nextIndex s t = 0 := by
    unfold nextIndex
    rw [if_pos hg]
  rw [setKbd_eq]
  simp [hn, writeHist]

theorem step_slot1_eq (screens : List String) (s : SageState) (t k : Nat)
    (hg : ¬ sub64 t s.last > 500) (hidx : s.idx = 0) :
    SetKbdHistoryIndex screens s t k =
      (⟨s.h0, k, s.h2, s.h3, 1, t, s.lock⟩, ⟨1, false, false, [], none⟩) := by
  have hn : nextIndex s t = 1 := by
    rw [nextIndex_quick_succ s t hg (by omega), hidx]
  rw [setKbd_eq]
  simp [hn, writeHist]

theorem step_slot2_eq (screens : List String) (s : SageState) (t k : Nat)
    (hg : ¬ sub64 t s.last > 500) (hidx : s.idx = 1) :
    SetKbdHistoryIndex screens s t k =
      (⟨s.h0, s.h1, k, s.h3, 2, t, s.lock⟩, ⟨2, false, false, [], none⟩) := by
  have hn : nextIndex s t = 2 := by
    rw [nextIndex_quick_succ s t hg (by omega), hidx]
  rw [setKbd_eq]
  simp [hn, writeHist]

theorem step_slot3_match_eq (screens : List String) (s : SageState) (t k : Nat)
    (hg : ¬ sub64 t s.last > 500) (hidx : s.idx = 2)
    (p0 : s.h0 = VK_VOLUME_UP) (p1 : s.h1 = VK_VOLUME_DOWN)
    (p2 : s.h2 = VK_VOLUME_UP) (hk : k = VK_VOLUME_DOWN) :
    SetKbdHistoryIndex screens s t k =
      (⟨VK_VOLUME_UP, VK_VOLUME_DOWN, VK_VOLUME_UP, VK_VOLUME_DOWN, 0, t,
        !s.lock⟩,
       ⟨3, true, true, screens.map (fun d => ⟨d, s.lock⟩), some s.lock⟩) := by
  have hn : nextIndex s t = 3 := by
    rw [nextIndex_quick_succ s t hg (by omega), hidx]
  rw [setKbd_eq]
  simp [hn, writeHist, volumePattern, p0, p1, p2, hk, VK_VOLUME_UP,
    VK_VOLUME_DOWN]

theorem runOut_append (screens : List String) (s : SageState)
    (es es' : List KeyEvent) :
    runOut screens s (es ++ es') =
      ((runOut screens (runOut screens s es).1 es').1,
        (runOut screens s es).2 ++
          (runOut screens (runOut screens s es).1 es').2) := by
  induction es generalizing s with
  | nil => simp [runOut]
  | cons e es ih => simp [runOut, ih]

theorem gesture_run (screens : List String) (s : SageState) (t1 t2 t3 t4 : Nat)
    (g1 : sub64 t1 s.last > 500) (g2 : sub64 t2 t1 ≤ 500)
    (g3 : sub64 t3 t2 ≤ 500) (g4 : sub64 t4 t3 ≤ 500) :
    runOut screens s
        [⟨t1, VK_VOLUME_UP⟩, ⟨t2, VK_VOLUME_DOWN⟩, ⟨t3, VK_VOLUME_UP⟩,
          ⟨t4, VK_VOLUME_DOWN⟩] =
      (⟨VK_VOLUME_UP, VK_VOLUME_DOWN, VK_VOLUME_UP, VK_VOLUME_DOWN, 0, t4,
        !s.lock⟩,
       [⟨0, false, false, [], none⟩, ⟨1, false, false, [], none⟩,
        ⟨2, false, false, [], none⟩,
        ⟨3, true, true, screens.map (fun d => ⟨d, s.lock⟩), some s.lock⟩]) := by
  simp only [runOut]
  rw [step_reset_eq screens s t1 VK_VOLUME_UP g1]
  dsimp only
  rw [step_slot1_eq screens ⟨VK_VOLUME_UP, s.h1, s.h2, s.h3, 0, t1, s.lock⟩ t2
      VK_VOLUME_DOWN (by simpa using by omega) rfl]
  dsimp only
  rw [step_slot2_eq screens
      ⟨VK_VOLUME_UP, VK_VOLUME_DOWN, s.h2, s.h3, 1, t2, s.lock⟩ t3
      VK_VOLUME_UP (by simpa using by omega) rfl]
  dsimp only
  rw [step_slot3_match_eq screens
      ⟨VK_VOLUME_UP, VK_VOLUME_DOWN, VK_VOLUME_UP, s.h3, 2, t3, s.lock⟩ t4
      VK_VOLUME_DOWN (by simpa using by omega) rfl rfl rfl rfl rfl]

/-! ### Claim theorems -/

/-- C1: at every slot-3 write whose resulting buffer is exactly
UP, DOWN, UP, DOWN, `SetKbdHistoryIndex` toggles the lock state exactly once,
issues one `ToggleTouchDevice` request per registered device with enable flag
equal to the negation of the new lock state, and issues exactly one
`SoundEffect` request whose flag equals the negation of the new lock state. -/
theorem match_at_slot3_toggles_and_emits (screens : List String) (s : SageState)
    (now vkKey : Nat)
    (hslot : (SetKbdHistoryIndex screens s now vkKey).2.slot = 3)
    (hpat : volumePattern (SetKbdHistoryIndex screens s now vkKey).1 = true) :
    (SetKbdHistoryIndex screens s now vkKey).1.lock = !s.lock ∧
    (SetKbdHistoryIndex screens s now vkKey).2.toggles =
      screens.map
        (fun d => ⟨d, !(SetKbdHistoryIndex screens s now vkKey).1.lock⟩) ∧
    (SetKbdHistoryIndex screens s now vkKey).2.sound =
      some (!(SetKbdHistoryIndex screens s now vkKey).1.lock) := by
  rw [step_slot] at hslot
  by_cases hp :
      volumePattern (writeHist { s with last := now, idx := nextIndex s now }
        (nextIndex s now) vkKey) = true
  · simp only [setKbd_eq, hslot, if_pos rfl] at hpat ⊢
    rw [hslot] at hp
    simp [hp, Bool.not_not]
  · exfalso
    simp only [setKbd_eq, hslot, if_pos rfl] at hpat
    rw [hslot] at hp
    simp [hp] at hpat

/-- C1 witness: from a state holding UP, DOWN, UP with cursor 2, a DOWN event
200 ms later completes the pattern at slot 3 and produces the toggle,
device requests and sound request. -/
theorem match_at_slot3_toggles_and_emits_witness :
    (SetKbdHistoryIndex ["dev"] ⟨175, 174, 175, 0, 2, 1000, false⟩ 1200 174).1.lock
        = !(SageState.mk 175 174 175 0 2 1000 false).lock ∧
    (SetKbdHistoryIndex ["dev"] ⟨175, 174, 175, 0, 2, 1000, false⟩ 1200 174).2.toggles =
      (["dev"] : List String).map (fun d =>
        ⟨d, !(SetKbdHistoryIndex ["dev"] ⟨175, 174, 175, 0, 2, 1000, false⟩
          1200 174).1.lock⟩) ∧
    (SetKbdHistoryIndex ["dev"] ⟨175, 174, 175, 0, 2, 1000, false⟩ 1200 174).2.sound =
      some (!(SetKbdHistoryIndex ["dev"] ⟨175, 174, 175, 0, 2, 1000, false⟩
        1200 174).1.lock) :=
  match_at_slot3_toggles_and_emits ["dev"] ⟨175, 174, 175, 0, 2, 1000, false⟩
    1200 174 (by decide) (by decide)

/-- C2: for every accepted event the debouncer records the new tick count,
resets the cursor to 0 when more than 500 ms elapsed since the previous
accepted event and advances it by one (wrapping to 0 above 3) otherwise,
writes the key code into the buffer slot at the updated cursor, and
`SetKbdHistoryIndex` receives exactly that slot index. -/
theorem debouncer_cursor_update (screens : List String) (s : SageState)
    (now vkKey : Nat) (hmono : s.last ≤ now) (hnow : now < 2 ^ 64)
    (hidx : s.idx < 2 ^ 16) :
    (GetAvailableKbdHistoryIndex s now).1.last = now ∧
    (GetAvailableKbdHistoryIndex s now).2 =
      (if now - s.last > 500 then 0
       else if s.idx + 1 > 3 then 0 else s.idx + 1) ∧
    (GetAvailableKbdHistoryIndex s now).1.idx =
      (GetAvailableKbdHistoryIndex s now).2 ∧
    getHist
      (writeHist (GetAvailableKbdHistoryIndex s now).1
        (GetAvailableKbdHistoryIndex s now).2 vkKey)
      (GetAvailableKbdHistoryIndex s now).2 = vkKey ∧
    (SetKbdHistoryIndex screens s now vkKey).2.slot =
      (GetAvailableKbdHistoryIndex s now).2 := by
  have hs : sub64 now s.last = now - s.last := sub64_eq_of_le hmono hnow
  refine ⟨?_, ?_, ?_, ?_, ?_⟩
  · rw [getAvail_eq]
  · rw [getAvail_eq]
    unfold nextIndex
    rw [hs]
    split_ifs <;> omega
  · rw [getAvail_eq]
  · rw [getAvail_eq]
    exact getHist_writeHist_self _ vkKey (nextIndex_le s now)
  · rw [getAvail_eq, step_slot]

/-- C2 witness: concrete instance at the initial state with an event at tick
1000, which resets the cursor to 0 and writes the key into slot 0. -/
theorem debouncer_cursor_update_witness :
    (GetAvailableKbdHistoryIndex initState 1000).1.last = 1000 ∧
    (GetAvailableKbdHistoryIndex initState 1000).2 =
      (if 1000 - initState.last > 500 then 0
       else if initState.idx + 1 > 3 then 0 else initState.idx + 1) ∧
    (GetAvailableKbdHistoryIndex initState 1000).1.idx =
      (GetAvailableKbdHistoryIndex initState 1000).2 ∧
    getHist
      (writeHist (GetAvailableKbdHistoryIndex initState 1000).1
        (GetAvailableKbdHistoryIndex initState 1000).2 175)
      (GetAvailableKbdHistoryIndex initState 1000).2 = 175 ∧
    (SetKbdHistoryIndex [] initState 1000 175).2.slot =
      (GetAvailableKbdHistoryIndex initState 1000).2 :=
  debouncer_cursor_update [] initState 1000 175 (by decide) (by norm_num)
    (by decide)

/-- C7: the write cursor stays in the range 0–3: the index returned and
stored by the debouncer is always at most 3, and every state reachable from
the initial state by processing accepted events has cursor at most 3. -/
theorem cursor_always_le_three :
    (∀ (s : SageState) (now : Nat),
      (GetAvailableKbdHistoryIndex s now).2 ≤ 3 ∧
      (GetAvailableKbdHistoryIndex s now).1.idx ≤ 3) ∧
    ∀ (screens : List String) (es : List KeyEvent),
      (runS screens initState es).idx ≤ 3 := by
  constructor
  · intro s now
    rw [getAvail_eq]
    exact ⟨nextIndex_le s now, nextIndex_le s now⟩
  · intro screens es
    exact runS_idx_le screens es initState (by decide)

/-- C8: every invocation of `CheckForVolumeUpDownUpDown` sets the cursor to 0
unconditionally and changes no other field of the state (buffer slots, last
timestamp and lock state are untouched); its result is exactly the pattern
test; and at the `SetKbdHistoryIndex` level the final cursor is 0 exactly when
the matcher was invoked and the written slot otherwise. -/
theorem matcher_resets_cursor_only :
    (∀ s : SageState,
      (CheckForVolumeUpDownUpDown s).1.idx = 0 ∧
      (CheckForVolumeUpDownUpDown s).1.h0 = s.h0 ∧
      (CheckForVolumeUpDownUpDown s).1.h1 = s.h1 ∧
      (CheckForVolumeUpDownUpDown s).1.h2 = s.h2 ∧
      (CheckForVolumeUpDownUpDown s).1.h3 = s.h3 ∧
      (CheckForVolumeUpDownUpDown s).1.last = s.last ∧
      (CheckForVolumeUpDownUpDown s).1.lock = s.lock ∧
      (CheckForVolumeUpDownUpDown s).2 = volumePattern s) ∧
    ∀ (screens : List String) (s : SageState) (now vkKey : Nat),
      (SetKbdHistoryIndex screens s now vkKey).1.idx =
        if (SetKbdHistoryIndex screens s now vkKey).2.checked = true then 0
        else (SetKbdHistoryIndex screens s now vkKey).2.slot := by
  constructor
  · intro s
    exact ⟨rfl, rfl, rfl, rfl, rfl, rfl, rfl, rfl⟩
  · intro screens s now vkKey
    rw [step_idx, step_slot]
    by_cases h : nextIndex s now = 3
    · rw [if_pos h, if_pos ((step_checked screens s now vkKey).2 h)]
    · rw [if_neg h,
        if_neg (fun hc => h ((step_checked screens s now vkKey).1 hc))]

/-- C9: at every slot-3 write whose resulting buffer is not the pattern
UP, DOWN, UP, DOWN, the lock state is unchanged, no device-toggle request and
no sound request is issued, and the cursor is nevertheless reset to 0. -/
theorem no_match_at_slot3_no_effects (screens : List String) (s : SageState)
    (now vkKey : Nat)
    (hslot : (SetKbdHistoryIndex screens s now vkKey).2.slot = 3)
    (hnp : volumePattern (SetKbdHistoryIndex screens s now vkKey).1 = false) :
    (SetKbdHistoryIndex screens s now vkKey).1.lock = s.lock ∧
    (SetKbdHistoryIndex screens s now vkKey).2.toggles = [] ∧
    (SetKbdHistoryIndex screens s now vkKey).2.sound = none ∧
    (SetKbdHistoryIndex screens s now vkKey).1.idx = 0 := by
  rw [step_slot] at hslot
  by_cases hp :
      volumePattern (writeHist { s with last := now, idx := nextIndex s now }
        (nextIndex s now) vkKey) = true
  · exfalso
    simp only [setKbd_eq, hslot, if_pos rfl] at hnp
    rw [hslot] at hp
    simp [hp] at hnp
  · simp only [setKbd_eq, hslot, if_pos rfl] at hnp ⊢
    rw [hslot] at hp
    simp [hp]

/-- C9 witness: a state holding UP, UP, DOWN with cursor 2 receives DOWN
200 ms later; slot 3 is written, the buffer does not match, so nothing is
emitted and the cursor is reset to 0. -/
theorem no_match_at_slot3_no_effects_witness :
    (SetKbdHistoryIndex [] ⟨175, 175, 174, 0, 2, 1000, false⟩ 1200 174).1.lock
        = (SageState.mk 175 175 174 0 2 1000 false).lock ∧
    (SetKbdHistoryIndex [] ⟨175, 175, 174, 0, 2, 1000, false⟩ 1200 174).2.toggles
        = [] ∧
    (SetKbdHistoryIndex [] ⟨175, 175, 174, 0, 2, 1000, false⟩ 1200 174).2.sound
        = none ∧
    (SetKbdHistoryIndex [] ⟨175, 175, 174, 0, 2, 1000, false⟩ 1200 174).1.idx
        = 0 :=
  no_match_at_slot3_no_effects [] ⟨175, 175, 174, 0, 2, 1000, false⟩ 1200 174
    (by decide) (by decide)

/-- C10: every accepted event writes exactly one buffer slot, the one at the
index returned by the debouncer (always at most 3): that slot holds the new
key code and every other slot keeps its previous value, so stale tags from
earlier cycles persist until overwritten. -/
theorem single_slot_write_frame (screens : List String) (s : SageState)
    (now vkKey j : Nat)
    (hne : j ≠ (SetKbdHistoryIndex screens s now vkKey).2.slot) :
    (SetKbdHistoryIndex screens s now vkKey).2.slot ≤ 3 ∧
    getHist (SetKbdHistoryIndex screens s now vkKey).1
      (SetKbdHistoryIndex screens s now vkKey).2.slot = vkKey ∧
    getHist (SetKbdHistoryIndex screens s now vkKey).1 j = getHist s j := by
  have hle := nextIndex_le s now
  rw [step_slot] at hne ⊢
  refine ⟨hle, ?_, ?_⟩
  · simp only [setKbd_eq]
    split_ifs with h1 h2 <;>
      simp [getHist_writeHist_self _ vkKey hle]
  · simp only [setKbd_eq]
    split_ifs with h1 h2 <;>
      simp [getHist_writeHist_ne _ vkKey hne]

/-- C10 witness: at the initial state an event at tick 1000 is written into
slot 0 while slot 1 keeps its previous value. -/
theorem single_slot_write_frame_witness :
    (SetKbdHistoryIndex [] initState 1000 175).2.slot ≤ 3 ∧
    getHist (SetKbdHistoryIndex [] initState 1000 175).1
      (SetKbdHistoryIndex [] initState 1000 175).2.slot = 175 ∧
    getHist (SetKbdHistoryIndex [] initState 1000 175).1 1 =
      getHist initState 1 :=
  single_slot_write_frame [] initState 1000 175 1 (by decide)

/-- C3 counterexample: after the quick gesture UP, DOWN, UP, DOWN (matcher
invoked at the fourth event, `checked = true`), a fifth event arriving 200 ms
later is written into slot 1, not slot 0 — refuting the claim that the event
following a matcher invocation always lands in slot 0. -/
theorem after_matcher_not_slot0_cex :
    ((runOut [] initState
        [⟨1000, VK_VOLUME_UP⟩, ⟨1200, VK_VOLUME_DOWN⟩, ⟨1400, VK_VOLUME_UP⟩,
         ⟨1600, VK_VOLUME_DOWN⟩, ⟨1800, VK_VOLUME_UP⟩]).2.map
      (fun o => (o.slot, o.checked))) =
      [(0, false), (1, false), (2, false), (3, true), (1, false)] := by
  decide

/-- C3 (amended): after a matcher invocation the cursor is 0, so the next
accepted event is written into slot 0 only when it arrives more than 500 ms
after the previous event; otherwise the increment puts it into slot 1, slot 0
keeps its stale tag, and the buffer can match in an overlapping fashion. -/
theorem after_matcher_next_slot (screens : List String) (s : SageState)
    (now vkKey now2 vkKey2 : Nat)
    (hch : (SetKbdHistoryIndex screens s now vkKey).2.checked = true) :
    (SetKbdHistoryIndex screens (SetKbdHistoryIndex screens s now vkKey).1
        now2 vkKey2).2.slot =
      if sub64 now2 now > 500 then 0 else 1 := by
  have h3 : nextIndex s now = 3 := (step_checked screens s now vkKey).1 hch
  rw [step_slot]
  unfold nextIndex
  rw [step_last, step_idx, if_pos h3]
  split_ifs <;> omega

/-- C3 amended witness: concrete instance of the two-step property at the
state reached after UP, DOWN, UP with cursor 2. -/
theorem after_matcher_next_slot_witness :
    (SetKbdHistoryIndex []
        (SetKbdHistoryIndex [] ⟨175, 174, 175, 0, 2, 1000, false⟩ 1200 174).1
        1400 175).2.slot =
      (if sub64 1400 1200 > 500 then 0 else 1) :=
  after_matcher_next_slot [] ⟨175, 174, 175, 0, 2, 1000, false⟩ 1200 174
    1400 175 (by decide)

/-- C4 counterexample: seven events UP, DOWN, UP, DOWN, DOWN, UP, DOWN with
400 ms gaps toggle the lock at event 4 and again at event 7.  At the second
toggle the slots are occupied by events 1, 5, 6, 7 (ghost provenance), which
were not accepted consecutively, and events 1 (tick 1000) and 7 (tick 3400)
are 2400 ms apart — more than the claimed ~1500 ms bound. -/
theorem toggle_with_stale_slot0_cex :
    ((runProvOut [] initState ⟨0, 0, 0, 0⟩ 1
        [⟨1000, VK_VOLUME_UP⟩, ⟨1400, VK_VOLUME_DOWN⟩, ⟨1800, VK_VOLUME_UP⟩,
         ⟨2200, VK_VOLUME_DOWN⟩, ⟨2600, VK_VOLUME_DOWN⟩, ⟨3000, VK_VOLUME_UP⟩,
         ⟨3400, VK_VOLUME_DOWN⟩]).2.map
      (fun x => (x.1.matched, x.2.p0, x.2.p1, x.2.p2, x.2.p3))) =
      [(false, 1, 0, 0, 0), (false, 1, 2, 0, 0), (false, 1, 2, 3, 0),
        (true, 1, 2, 3, 4), (false, 1, 5, 3, 4), (false, 1, 5, 6, 4),
        (true, 1, 5, 6, 7)] := by
  decide

/-- C4 (amended): whenever a step toggles the lock (`matched = true`), the
three most recent accepted events — the ones occupying slots 1 to 3 — were
accepted consecutively with each at most 500 ms after its predecessor.  The
tag in slot 0 may be stale from an older event, so no bound holds between the
first and last occupying events. -/
theorem toggle_last_three_gaps_le_500 (screens : List String) (s0 : SageState)
    (es : List KeyEvent) (a b c : KeyEvent)
    (hm : (SetKbdHistoryIndex screens (runS screens s0 (es ++ [a, b]))
        c.time c.vk).2.matched = true) :
    sub64 c.time b.time ≤ 500 ∧ sub64 b.time a.time ≤ 500 ∧
      sub64 a.time (runS screens s0 es).last ≤ 500 := by
  have hab : runS screens s0 (es ++ [a, b]) =
      (SetKbdHistoryIndex screens
        (SetKbdHistoryIndex screens (runS screens s0 es) a.time a.vk).1
        b.time b.vk).1 := by
    rw [runS_append]
    rfl
  rw [hab] at hm
  set sA := runS screens s0 es with hsA
  set sB := (SetKbdHistoryIndex screens sA a.time a.vk).1 with hsB
  set sC := (SetKbdHistoryIndex screens sB b.time b.vk).1 with hsC
  have h3c : nextIndex sC c.time = 3 := step_matched screens sC c.time c.vk hm
  obtain ⟨hgc, hic⟩ :=
    nextIndex_quick_of_pos sC c.time (by rw [h3c]; norm_num)
  have hleC : sC.idx ≤ 3 := by
    rw [hsC]
    exact step_idx_le screens sB b.time b.vk
  have hic2 : sC.idx = 2 := by omega
  have hstepB := step_idx screens sB b.time b.vk
  rw [← hsC, hic2] at hstepB
  have hnb : nextIndex sB b.time = 2 := by
    by_cases h : nextIndex sB b.time = 3
    · rw [if_pos h] at hstepB
      omega
    · rw [if_neg h] at hstepB
      omega
  obtain ⟨hgb, hib⟩ :=
    nextIndex_quick_of_pos sB b.time (by rw [hnb]; norm_num)
  have hleB : sB.idx ≤ 3 := by
    rw [hsB]
    exact step_idx_le screens sA a.time a.vk
  have hib2 : sB.idx = 1 := by omega
  have hstepA := step_idx screens sA a.time a.vk
  rw [← hsB, hib2] at hstepA
  have hna : nextIndex sA a.time = 1 := by
    by_cases h : nextIndex sA a.time = 3
    · rw [if_pos h] at hstepA
      omega
    · rw [if_neg h] at hstepA
      omega
  obtain ⟨hga, _⟩ :=
    nextIndex_quick_of_pos sA a.time (by rw [hna]; norm_num)
  refine ⟨?_, ?_, hga⟩
  · rw [hsC, step_last] at hgc
    exact hgc
  · rw [hsB, step_last] at hgb
    exact hgb

/-- C4 amended witness: the quick gesture UP, DOWN, UP, DOWN satisfies the
hypothesis at its fourth event and the three pairwise gaps are 200 ms. -/
theorem toggle_last_three_gaps_le_500_witness :
    sub64 1600 1400 ≤ 500 ∧ sub64 1400 1200 ≤ 500 ∧
      sub64 1200 (runS [] initState [⟨1000, 175⟩]).last ≤ 500 :=
  toggle_last_three_gaps_le_500 [] initState [⟨1000, 175⟩] ⟨1200, 174⟩
    ⟨1400, 175⟩ ⟨1600, 174⟩ (by decide)

/-- C5 counterexample: after the matching fourth event the cursor is reset to
0, yet the matcher runs again (`checked = true`) at the seventh event — only 3
accepted events after that reset, refuting "never before the 4th event". -/
theorem matcher_at_third_event_cex :
    (runS [] initState
        [⟨1000, VK_VOLUME_UP⟩, ⟨1400, VK_VOLUME_DOWN⟩, ⟨1800, VK_VOLUME_UP⟩,
         ⟨2200, VK_VOLUME_DOWN⟩]).idx = 0 ∧
    ((runOut [] initState
        [⟨1000, VK_VOLUME_UP⟩, ⟨1400, VK_VOLUME_DOWN⟩, ⟨1800, VK_VOLUME_UP⟩,
         ⟨2200, VK_VOLUME_DOWN⟩, ⟨2600, VK_VOLUME_DOWN⟩, ⟨3000, VK_VOLUME_UP⟩,
         ⟨3400, VK_VOLUME_DOWN⟩]).2.map
      (fun o => (o.slot, o.checked))) =
      [(0, false), (1, false), (2, false), (3, true), (1, false), (2, false),
        (3, true)] := by
  decide

/-- C5 (amended): from any state whose cursor is 0 (just after a cursor
reset), the matcher is not invoked during the next two accepted events; a
slot-3 write can occur at the 3rd event after a matcher-invocation reset, and
occurs at the 4th after a debounce-timeout reset. -/
theorem no_matcher_within_two_of_reset (screens : List String) (s : SageState)
    (a b : KeyEvent) (h : s.idx = 0) :
    (SetKbdHistoryIndex screens s a.time a.vk).2.checked = false ∧
    (SetKbdHistoryIndex screens (SetKbdHistoryIndex screens s a.time a.vk).1
        b.time b.vk).2.checked = false := by
  have h1 : nextIndex s a.time ≤ 1 := by
    unfold nextIndex
    rw [h]
    split_ifs <;> omega
  have hidx1 : (SetKbdHistoryIndex screens s a.time a.vk).1.idx ≤ 1 := by
    rw [step_idx]
    split_ifs <;> omega
  have h2 : nextIndex (SetKbdHistoryIndex screens s a.time a.vk).1 b.time ≤ 2 := by
    unfold nextIndex
    split_ifs <;> omega
  constructor
  · cases hb : (SetKbdHistoryIndex screens s a.time a.vk).2.checked with
    | false => rfl
    | true =>
      have := (step_checked screens s a.time a.vk).1 hb
      omega
  · cases hb : (SetKbdHistoryIndex screens
        (SetKbdHistoryIndex screens s a.time a.vk).1 b.time b.vk).2.checked with
    | false => rfl
    | true =>
      have := (step_checked screens _ b.time b.vk).1 hb
      omega

/-- C5 amended witness: from the initial state (cursor 0) two quick events do
not invoke the matcher. -/
theorem no_matcher_within_two_of_reset_witness :
    (SetKbdHistoryIndex [] initState 1000 175).2.checked = false ∧
    (SetKbdHistoryIndex [] (SetKbdHistoryIndex [] initState 1000 175).1
        1200 174).2.checked = false :=
  no_matcher_within_two_of_reset [] initState ⟨1000, 175⟩ ⟨1200, 174⟩ rfl

/-- C6 counterexample: eight quick events UP, DOWN, UP, DOWN, UP, DOWN, UP,
DOWN (all gaps 200 ms) toggle the lock only once: after the first match the
cursor restarts at slot 1, so the seventh event triggers a non-matching
slot-3 check (buffer UP, UP, DOWN, UP) and the final lock state is `true`,
not the original `false`; only one round of device/sound requests is
issued. -/
theorem double_gesture_quick_single_toggle_cex :
    (runOut ["d"] initState
        [⟨1000, VK_VOLUME_UP⟩, ⟨1200, VK_VOLUME_DOWN⟩, ⟨1400, VK_VOLUME_UP⟩,
         ⟨1600, VK_VOLUME_DOWN⟩, ⟨1800, VK_VOLUME_UP⟩, ⟨2000, VK_VOLUME_DOWN⟩,
         ⟨2200, VK_VOLUME_UP⟩, ⟨2400, VK_VOLUME_DOWN⟩]).1.lock = true ∧
    ((runOut ["d"] initState
        [⟨1000, VK_VOLUME_UP⟩, ⟨1200, VK_VOLUME_DOWN⟩, ⟨1400, VK_VOLUME_UP⟩,
         ⟨1600, VK_VOLUME_DOWN⟩, ⟨1800, VK_VOLUME_UP⟩, ⟨2000, VK_VOLUME_DOWN⟩,
         ⟨2200, VK_VOLUME_UP⟩, ⟨2400, VK_VOLUME_DOWN⟩]).2.map
      (fun o => (o.matched, o.toggles.length, o.sound))) =
      [(false, 0, none), (false, 0, none), (false, 0, none),
        (true, 1, some false), (false, 0, none), (false, 0, none),
        (false, 0, none), (false, 0, none)] := by
  decide

/-- C6 (amended): performing the 4-event gesture twice toggles the lock state
exactly twice — returning it to its original value, with one device-toggle
round per device per gesture (first disabling, then re-enabling) and two
sound requests — provided the first event of the second performance arrives
more than 500 ms after the last event of the first (each performance's
internal gaps being at most 500 ms); with all 8 gaps at most 500 ms the
second performance does not match. -/
theorem double_gesture_with_pause_toggles_twice (screens : List String)
    (t1 t2 t3 t4 t5 t6 t7 t8 : Nat)
    (g1 : sub64 t1 0 > 500) (g2 : sub64 t2 t1 ≤ 500) (g3 : sub64 t3 t2 ≤ 500)
    (g4 : sub64 t4 t3 ≤ 500) (g5 : sub64 t5 t4 > 500) (g6 : sub64 t6 t5 ≤ 500)
    (g7 : sub64 t7 t6 ≤ 500) (g8 : sub64 t8 t7 ≤ 500) :
    (runOut screens initState
        [⟨t1, VK_VOLUME_UP⟩, ⟨t2, VK_VOLUME_DOWN⟩, ⟨t3, VK_VOLUME_UP⟩,
         ⟨t4, VK_VOLUME_DOWN⟩, ⟨t5, VK_VOLUME_UP⟩, ⟨t6, VK_VOLUME_DOWN⟩,
         ⟨t7, VK_VOLUME_UP⟩, ⟨t8, VK_VOLUME_DOWN⟩]).1.lock = initState.lock ∧
    ((runOut screens initState
        [⟨t1, VK_VOLUME_UP⟩, ⟨t2, VK_VOLUME_DOWN⟩, ⟨t3, VK_VOLUME_UP⟩,
         ⟨t4, VK_VOLUME_DOWN⟩, ⟨t5, VK_VOLUME_UP⟩, ⟨t6, VK_VOLUME_DOWN⟩,
         ⟨t7, VK_VOLUME_UP⟩, ⟨t8, VK_VOLUME_DOWN⟩]).2.map Output.matched) =
      [false, false, false, true, false, false, false, true] ∧
    ((runOut screens initState
        [⟨t1, VK_VOLUME_UP⟩, ⟨t2, VK_VOLUME_DOWN⟩, ⟨t3, VK_VOLUME_UP⟩,
         ⟨t4, VK_VOLUME_DOWN⟩, ⟨t5, VK_VOLUME_UP⟩, ⟨t6, VK_VOLUME_DOWN⟩,
         ⟨t7, VK_VOLUME_UP⟩, ⟨t8, VK_VOLUME_DOWN⟩]).2.map Output.toggles) =
      [[], [], [], screens.map (fun d => ⟨d, false⟩), [], [], [],
        screens.map (fun d => ⟨d, true⟩)] ∧
    ((runOut screens initState
        [⟨t1, VK_VOLUME_UP⟩, ⟨t2, VK_VOLUME_DOWN⟩, ⟨t3, VK_VOLUME_UP⟩,
         ⟨t4, VK_VOLUME_DOWN⟩, ⟨t5, VK_VOLUME_UP⟩, ⟨t6, VK_VOLUME_DOWN⟩,
         ⟨t7, VK_VOLUME_UP⟩, ⟨t8, VK_VOLUME_DOWN⟩]).2.map Output.sound) =
      [none, none, none, some false, none, none, none, some true] := by
  have hsplit :
      ([⟨t1, VK_VOLUME_UP⟩, ⟨t2, VK_VOLUME_DOWN⟩, ⟨t3, VK_VOLUME_UP⟩,
        ⟨t4, VK_VOLUME_DOWN⟩, ⟨t5, VK_VOLUME_UP⟩, ⟨t6, VK_VOLUME_DOWN⟩,
        ⟨t7, VK_VOLUME_UP⟩, ⟨t8, VK_VOLUME_DOWN⟩] : List KeyEvent) =
      [⟨t1, VK_VOLUME_UP⟩, ⟨t2, VK_VOLUME_DOWN⟩, ⟨t3, VK_VOLUME_UP⟩,
        ⟨t4, VK_VOLUME_DOWN⟩] ++
      [⟨t5, VK_VOLUME_UP⟩, ⟨t6, VK_VOLUME_DOWN⟩, ⟨t7, VK_VOLUME_UP⟩,
        ⟨t8, VK_VOLUME_DOWN⟩] := rfl
  rw [hsplit, runOut_append,
    gesture_run screens initState t1 t2 t3 t4 g1 g2 g3 g4]
  dsimp only
  rw [gesture_run screens
      ⟨VK_VOLUME_UP, VK_VOLUME_DOWN, VK_VOLUME_UP, VK_VOLUME_DOWN, 0, t4,
        !initState.lock⟩ t5 t6 t7 t8 (by simpa using g5) g6 g7 g8]
  simp [initState]

/-- C6 amended witness: concrete double performance with a 600 ms pause
between the two gestures. -/
theorem double_gesture_with_pause_toggles_twice_witness :
    (runOut ["d"] initState
        [⟨1000, VK_VOLUME_UP⟩, ⟨1200, VK_VOLUME_DOWN⟩, ⟨1400, VK_VOLUME_UP⟩,
         ⟨1600, VK_VOLUME_DOWN⟩, ⟨2200, VK_VOLUME_UP⟩, ⟨2400, VK_VOLUME_DOWN⟩,
         ⟨2600, VK_VOLUME_UP⟩, ⟨2800, VK_VOLUME_DOWN⟩]).1.lock =
      initState.lock ∧
    ((runOut ["d"] initState
        [⟨1000, VK_VOLUME_UP⟩, ⟨1200, VK_VOLUME_DOWN⟩, ⟨1400, VK_VOLUME_UP⟩,
         ⟨1600, VK_VOLUME_DOWN⟩, ⟨2200, VK_VOLUME_UP⟩, ⟨2400, VK_VOLUME_DOWN⟩,
         ⟨2600, VK_VOLUME_UP⟩, ⟨2800, VK_VOLUME_DOWN⟩]).2.map Output.matched) =
      [false, false, false, true, false, false, false, true] ∧
    ((runOut ["d"] initState
        [⟨1000, VK_VOLUME_UP⟩, ⟨1200, VK_VOLUME_DOWN⟩, ⟨1400, VK_VOLUME_UP⟩,
         ⟨1600, VK_VOLUME_DOWN⟩, ⟨2200, VK_VOLUME_UP⟩, ⟨2400, VK_VOLUME_DOWN⟩,
         ⟨2600, VK_VOLUME_UP⟩, ⟨2800, VK_VOLUME_DOWN⟩]).2.map Output.toggles) =
      [[], [], [], (["d"] : List String).map (fun d => ⟨d, false⟩), [], [], [],
        (["d"] : List String).map (fun d => ⟨d, true⟩)] ∧
    ((runOut ["d"] initState
        [⟨1000, VK_VOLUME_UP⟩, ⟨1200, VK_VOLUME_DOWN⟩, ⟨1400, VK_VOLUME_UP⟩,
         ⟨1600, VK_VOLUME_DOWN⟩, ⟨2200, VK_VOLUME_UP⟩, ⟨2400, VK_VOLUME_DOWN⟩,
         ⟨2600, VK_VOLUME_UP⟩, ⟨2800, VK_VOLUME_DOWN⟩]).2.map Output.sound) =
      [none, none, none, some false, none, none, none, some true] :=
  double_gesture_with_pause_toggles_twice ["d"] 1000 1200 1400 1600 2200 2400
    2600 2800 (by decide) (by decide) (by decide) (by decide) (by decide)
    (by decide) (by decide) (by decide)

end SageLock
